import Mathlib

/-!
Verification of the `NestedSelect` hierarchical picker widget
(src/src/components/NestedSelect.tsx).

The development shallowly embeds the widget's internal state machine:

* `ItemId` models the TypeScript type `string | number` used for node ids
  (`NavigationItem.id : string | number`); a JavaScript `null` is modelled as
  `Option ItemId` being `none`.
* `Item` / `ItemList` model a tree node and an array of tree nodes.  In the
  source, nodes are duck-typed records accessed through configurable key names
  (`idKey` / `labelKey` / `childrenKey`, defaults `"id"` / `"name"` /
  `"children"`); the embedding fixes the three resolved fields.  A missing
  `children` field (`undefined`) and an empty children array behave
  identically in every code path (`item[childrenKey]?.length > 0` is `false`
  for both, and `item[childrenKey] || []` yields an empty array for both), so
  both are modelled as `ItemList.nil`.
* `State` models the React state of one widget instance
  (`isOpen`, `navigationPath`, `searchQuery`, `isSearching`, `selectedItem`);
  `Config` models the props that the handlers read.
* Each event handler of the component is translated to a function
  `State → State` (or `State → State × Option (Item × List NavigationItem)`
  when the handler may invoke the external `onSelect` callback; `some (it, p)`
  means exactly one invocation `onSelect(it, p)` during that handler run,
  `none` means no invocation — each handler calls `onSelect` at most once).
* `step` / `Reachable` give the event-level transition system: an event is
  enabled only when the corresponding control is rendered and interactive in
  the UI (e.g. the Back button exists only while the dropdown is open with a
  non-empty path).

JavaScript semantics that the handlers rely on and that the embedding makes
explicit:

* `===` on ids (`jsEqStrict`): equal only when both operands have the same
  type and value.
* `==` on ids (`jsEqLoose`): when a number is compared with a string the
  string is coerced to a number (`jsStringToInt`; the empty string coerces
  to `0`, non-numeric strings to `NaN`, which equals nothing).  The resync
  effect uses `==` while `handleSelectAll` and `findChildren` use `===`.
* truthiness of an id (`idTruthy` / `optIdTruthy`): the number `0`, the empty
  string, and `null` are falsy.  `getCurrentItems` guards with
  `!currentParentId` and `handleSelectAll` with `if (currentParentId)`, so
  both treat a falsy id like "no parent".
-/

/-- Model of the TypeScript id type `string | number` (integer-valued
numbers; the ids exercised by the widget and its documentation are integers
and strings). -/
inductive ItemId where
  | num (n : Int)
  | str (s : String)
deriving DecidableEq, Repr

/-- JavaScript numeric coercion `Number(s)` for strings, restricted to the
integer fragment: the empty string coerces to `0`, an optionally signed
digit string to the corresponding integer, anything else to `NaN`
(represented by `none`, which compares equal to nothing). -/
def jsStringToInt (s : String) : Option Int :=
  if s = "" then some 0
  else if s.startsWith "-" then (String.toNat? (s.drop 1)).map (fun n => -(n : Int))
  else (String.toNat? s).map (fun n => (n : Int))

/-- JavaScript strict equality `===` on ids: no coercion across types. -/
def jsEqStrict : ItemId → ItemId → Bool
  | .num a, .num b => a == b
  | .str a, .str b => a == b
  | .num _, .str _ => false
  | .str _, .num _ => false

/-- JavaScript loose equality `==` on ids: a string compared with a number is
coerced to a number first. -/
def jsEqLoose : ItemId → ItemId → Bool
  | .num a, .num b => a == b
  | .str a, .str b => a == b
  | .num a, .str s => jsStringToInt s == some a
  | .str s, .num a => jsStringToInt s == some a

/-- JavaScript truthiness of an id value: `0` and `""` are falsy. -/
def idTruthy : ItemId → Bool
  | .num n => n != 0
  | .str s => s != ""

/-- JavaScript truthiness of a nullable id: `null` is falsy. -/
def optIdTruthy : Option ItemId → Bool
  | none => false
  | some i => idTruthy i

mutual

/-- A tree node (`NestedItem`): resolved id, label and children fields. -/
inductive Item : Type where
  | mk (id : ItemId) (label : String) (children : ItemList)
deriving DecidableEq, Repr

/-- An array of tree nodes (`NestedItem[]`). -/
inductive ItemList : Type where
  | nil : ItemList
  | cons (hd : Item) (tl : ItemList) : ItemList
deriving DecidableEq, Repr

end

/-- The resolved identifier field `item[idKey]`. -/
def Item.id : Item → ItemId
  | .mk i _ _ => i

/-- The resolved label field `item[labelKey]`. -/
def Item.label : Item → String
  | .mk _ l _ => l

/-- The resolved children field `item[childrenKey]`, with `undefined`
collapsed to the empty array (see the header comment). -/
def Item.children : Item → ItemList
  | .mk _ _ c => c

/-- Length of a node array (`items.length`). -/
def ItemList.length : ItemList → Nat
  | .nil => 0
  | .cons _ tl => tl.length + 1

/-- Membership test on a node array (used to express that an item's button is
currently rendered in the list). -/
def ItemList.elem (x : Item) : ItemList → Bool
  | .nil => false
  | .cons hd tl => x == hd || tl.elem x

/-- Conversion of a node array to a Lean list (specification-side helper). -/
def ItemList.toList : ItemList → List Item
  | .nil => []
  | .cons hd tl => hd :: tl.toList

mutual

/-- Per-node step of `findItem` (NestedSelect.tsx lines 114-125 and 239-250):
check the node itself, then search its children depth-first.  The equality on
ids is a parameter because the source contains two copies of `findItem`: the
selected-item resync effect compares with `==` (line 116) while
`handleSelectAll` compares with `===` (line 241).  The source guards the
recursion with `item[childrenKey]?.length`, which only skips recursing into
an empty child array and does not change the result. -/
def findItemI (eq : ItemId → ItemId → Bool) (it : Item) (id : ItemId) : Option Item :=
  match it with
  | .mk i l cs => if eq i id then some (.mk i l cs) else findItemL eq cs id

/-- The loop of `findItem` over a node array: first match in depth-first
pre-order wins, otherwise continue with the rest of the array. -/
def findItemL (eq : ItemId → ItemId → Bool) (l : ItemList) (id : ItemId) : Option Item :=
  match l with
  | .nil => none
  | .cons x xs =>
    match findItemI eq x id with
    | some r => some r
    | none => findItemL eq xs id

end

/-- The `findItem` copy of the selected-item resync effect (lines 114-125),
which compares ids with `==`. -/
def findItemLoose (l : ItemList) (id : ItemId) : Option Item :=
  findItemL jsEqLoose l id

/-- The `findItem` copy inside `handleSelectAll` (lines 239-250), which
compares ids with `===`. -/
def findItemStrict (l : ItemList) (id : ItemId) : Option Item :=
  findItemL jsEqStrict l id

/-- The helper `findChildren` of `getCurrentItems` (lines 138-149).  For each
node of the array, in order: on an id match (`===`) return the node's
children unconditionally (`item[childrenKey] || []`, which is the children
array itself, empty or not); otherwise search that node's children
recursively and return the result only when it is non-empty
(`if (found.length) return found`) — an empty recursive result makes the
loop continue with the later siblings.  The `item[childrenKey]?.length`
guard before the recursive call only skips recursing into an empty child
array and does not change the result. -/
def findChildrenL (l : ItemList) (id : ItemId) : ItemList :=
  match l with
  | .nil => .nil
  | .cons (.mk i _lb cs) xs =>
    if jsEqStrict i id then cs
    else
      match findChildrenL cs id with
      | .nil => findChildrenL xs id
      | .cons h t => .cons h t

mutual

/-- Depth-first pre-order enumeration of a node's subtree (specification-side
helper used to state properties of `findItem`). -/
def preorderI : Item → List Item
  | .mk i l cs => Item.mk i l cs :: preorderL cs

/-- Depth-first pre-order enumeration of all nodes of a node array. -/
def preorderL : ItemList → List Item
  | .nil => []
  | .cons x xs => preorderI x ++ preorderL xs

end

/-- A breadcrumb entry (`NavigationItem`, lines 12-16): the id/label snapshot
of a node at the moment it was descended into, plus the id of the parent
level (`null`, i.e. `none`, for a first-level entry). -/
structure NavigationItem where
  id : ItemId
  label : String
  parentId : Option ItemId
deriving DecidableEq, Repr

/-- The props of `NestedSelect` that its state handlers read.  `disableItem`
and `filterItems` are the caller-supplied predicates (with `disableItem`
absent modelled as the constantly-false predicate, matching the optional
call `disableItem?.(item)`); presentation-only props are omitted. -/
structure Config where
  items : ItemList
  disableItem : Item → Bool
  filterItems : Option (ItemList → String → ItemList)
  showSelectAll : Bool
  showBreadcrumb : Bool

/-- The React state of one widget instance (lines 93-104). -/
structure State where
  isOpen : Bool
  navigationPath : List NavigationItem
  searchQuery : String
  isSearching : Bool
  selectedItem : Option Item
deriving DecidableEq, Repr

/-- The initial state (`useState` defaults): closed, empty path, empty
query, search off, no resolved selection. -/
def initState : State :=
  { isOpen := false, navigationPath := [], searchQuery := "", isSearching := false,
    selectedItem := none }

/-- The derived value `currentParentId` (lines 99-101): the id of the last
navigation-path entry, or `null` when the path is empty. -/
def currentParentId (s : State) : Option ItemId :=
  match s.navigationPath.getLast? with
  | some e => some e.id
  | none => none

/-- The memoized `getCurrentItems` (lines 132-152): `!currentParentId` is
true in JavaScript when `currentParentId` is `null` or a falsy id (`0`,
`""`), and then the full top-level array is returned; otherwise the children
of the current parent are looked up with `findChildren`. -/
def getCurrentItems (cfg : Config) (s : State) : ItemList :=
  match currentParentId s with
  | none => cfg.items
  | some pid =>
    if idTruthy pid then findChildrenL cfg.items pid else cfg.items

/-- The memoized `currentItems` (lines 155-163): apply the caller-supplied
filter predicate only when the search query is truthy (non-empty) and the
predicate was supplied. -/
def currentItems (cfg : Config) (s : State) : ItemList :=
  match cfg.filterItems with
  | some f => if s.searchQuery ≠ "" then f (getCurrentItems cfg s) s.searchQuery else getCurrentItems cfg s
  | none => getCurrentItems cfg s

/-- The handler `handleItemClick` (lines 166-208).  Result: the new state,
paired with `some (item, path)` when the handler invokes
`onSelect(item, path)` (exactly once, in the leaf branch) and `none`
otherwise.  Disabled guard: `if (disableItem?.(item)) return`.  Descend
branch (`hasChildren`, i.e. `item[childrenKey]?.length > 0`): append a
`NavigationItem` whose `parentId` is the current `currentParentId`; the
search-field focus side effect has no state content.  Leaf branch: invoke
`onSelect` with the path as of the click, record the item as selected,
close, clear query and search mode — the navigation path is not written. -/
def handleItemClick (cfg : Config) (s : State) (it : Item) :
    State × Option (Item × List NavigationItem) :=
  if cfg.disableItem it then (s, none)
  else if (Item.children it).length > 0 then
    ({ s with navigationPath :=
        s.navigationPath ++ [{ id := it.id, label := it.label, parentId := currentParentId s }] },
      none)
  else
    ({ s with selectedItem := some it, isOpen := false, searchQuery := "", isSearching := false },
      some (it, s.navigationPath))

/-- The handler `handleBack` (lines 211-214): drop the last path entry
(`prev.slice(0, -1)`) and clear the search query. -/
def handleBack (s : State) : State :=
  { s with navigationPath := s.navigationPath.dropLast, searchQuery := "" }

/-- The handler `handleClose` (lines 217-222), installed only on the
outside-mousedown listener: close and reset path, query and search mode. -/
def handleClose (s : State) : State :=
  { s with isOpen := false, navigationPath := [], searchQuery := "", isSearching := false }

/-- The handler `toggleSearch` (lines 225-234): flip `isSearching`; when
turning search off, clear the query (the deferred focus call when turning it
on has no state content). -/
def toggleSearch (s : State) : State :=
  if s.isSearching then { s with isSearching := false, searchQuery := "" }
  else { s with isSearching := true }

/-- The handler `handleSelectAll` (lines 237-261): guarded by the truthiness
of `currentParentId` (`if (currentParentId)`); resolve the current parent
with the strict-equality `findItem`, and if found invoke
`onSelect(currentItem, navigationPath)` with the full current path, record
the selection, close, and clear the search state. -/
def handleSelectAll (cfg : Config) (s : State) :
    State × Option (Item × List NavigationItem) :=
  match currentParentId s with
  | none => (s, none)
  | some pid =>
    if idTruthy pid then
      match findItemStrict cfg.items pid with
      | some cur =>
        ({ s with
            selectedItem := some cur, isOpen := false, searchQuery := "",
            isSearching := false },
          some (cur, s.navigationPath))
      | none => (s, none)
    else (s, none)

/-- The selected-item resync effect (lines 107-129), run whenever the
externally supplied `selectedItemId` changes: `null` (with `undefined`
normalized to `null` by the prop default) resolves to no selection,
otherwise a full-tree `findItem` search with loose equality; a failed search
also resolves to no selection, with no signal to the caller. -/
def resyncSelectedItem (cfg : Config) (selId : Option ItemId) (s : State) : State :=
  match selId with
  | none => { s with selectedItem := none }
  | some i => { s with selectedItem := findItemLoose cfg.items i }

/-- The trigger button's click handler (line 342): `setIsOpen(!isOpen)` —
it toggles the open flag and writes nothing else. -/
def triggerClick (s : State) : State :=
  { s with isOpen := !s.isOpen }

/-- The user-interface events that can reach the widget's handlers, together
with the externally driven `selectedItemId` prop change. -/
inductive Event where
  | trigger
  | itemClick (it : Item)
  | back
  | clickOutside
  | searchToggle
  | searchInput (q : String)
  | selectLevel
  | selectedIdChange (selId : Option ItemId)

/-- Whether an event can actually occur in a state: an interaction event is
enabled exactly when the control it targets is rendered and interactive
(the dropdown body renders only while `isOpen`; an item button exists only
for members of the displayed list; the Back button and the
"Select this level" button render only with a non-empty path, the latter
additionally requiring `showBreadcrumb` and `showSelectAll`; the search
input renders only in search mode).  The trigger button, outside clicks and
prop changes are always possible. -/
def eventEnabled (cfg : Config) (s : State) : Event → Bool
  | .trigger => true
  | .itemClick it => s.isOpen && (currentItems cfg s).elem it
  | .back => s.isOpen && !s.navigationPath.isEmpty
  | .clickOutside => true
  | .searchToggle => s.isOpen
  | .searchInput _ => s.isOpen && s.isSearching
  | .selectLevel =>
    s.isOpen && !s.navigationPath.isEmpty && cfg.showBreadcrumb && cfg.showSelectAll
  | .selectedIdChange _ => true

/-- One transition of the widget: the new state plus the `onSelect`
invocation (if any) performed during the event. -/
def stepOut (cfg : Config) (s : State) :
    Event → State × Option (Item × List NavigationItem)
  | .trigger => (triggerClick s, none)
  | .itemClick it => handleItemClick cfg s it
  | .back => (handleBack s, none)
  | .clickOutside => (handleClose s, none)
  | .searchToggle => (toggleSearch s, none)
  | .searchInput q => ({ s with searchQuery := q }, none)
  | .selectLevel => handleSelectAll cfg s
  | .selectedIdChange selId => (resyncSelectedItem cfg selId s, none)

/-- The state part of a transition. -/
def step (cfg : Config) (s : State) (e : Event) : State :=
  (stepOut cfg s e).1

/-- Reachable widget states: the initial state, closed under enabled
events. -/
inductive Reachable (cfg : Config) : State → Prop where
  | init : Reachable cfg initState
  | next (s : State) (e : Event) :
      Reachable cfg s → eventEnabled cfg s e = true → Reachable cfg (step cfg s e)

/-- Leaf node `{id: 11, name: "A1"}` from the README/scenario tree. -/
def exA1 : Item := .mk (.num 11) "A1" .nil

/-- Node `{id: 1, name: "A", children: [exA1]}`. -/
def exA : Item := .mk (.num 1) "A" (.cons exA1 .nil)

/-- Leaf node `{id: 2, name: "B"}`. -/
def exB : Item := .mk (.num 2) "B" .nil

/-- The scenario tree `[A, B]`. -/
def exItems : ItemList := .cons exA (.cons exB .nil)

/-- A concrete configuration: the scenario tree, no disabled items, no
search filter, both display toggles at their defaults. -/
def exCfg : Config :=
  { items := exItems, disableItem := fun _ => false, filterItems := none,
    showSelectAll := true, showBreadcrumb := true }

/-- The breadcrumb entry created by descending into `exA` from the root. -/
def pA : NavigationItem := { id := .num 1, label := "A", parentId := none }

/-- State after opening the dropdown: `trigger` from the initial state. -/
def exS1 : State := step exCfg initState .trigger

/-- State after opening and descending into `exA`. -/
def exS2 : State := step exCfg exS1 (.itemClick exA)

/-- State after opening, descending into `exA`, and clicking the trigger
button again (which merely toggles `isOpen`). -/
def exS3 : State := step exCfg exS2 .trigger

/-- Leaf node `{id: 7, name: "C"}` under the falsy-id node. -/
def exC : Item := .mk (.num 7) "C" .nil

/-- A node whose id is the falsy number `0`, with one child. -/
def exN0 : Item := .mk (.num 0) "Zero" (.cons exC .nil)

/-- Configuration whose tree is `[exN0]`. -/
def exCfg0 : Config :=
  { items := .cons exN0 .nil, disableItem := fun _ => false, filterItems := none,
    showSelectAll := true, showBreadcrumb := true }

/-- The breadcrumb entry created by descending into `exN0` from the root. -/
def p0 : NavigationItem := { id := .num 0, label := "Zero", parentId := none }

/-- Open state at the level below `exN0` (reachable by opening and clicking
`exN0`, which has a child). -/
def exS0 : State :=
  { isOpen := true, navigationPath := [p0], searchQuery := "", isSearching := false,
    selectedItem := none }

/-- Configuration over the scenario tree in which exactly `exB` is
disabled. -/
def exCfgD : Config :=
  { items := exItems, disableItem := fun it => it == exB, filterItems := none,
    showSelectAll := true, showBreadcrumb := true }

/-- State after opening the dropdown and toggling search mode on. -/
def exSQ1 : State := step exCfg exS1 .searchToggle

/-- State after opening, toggling search on, and typing the query `"x"`. -/
def exSQ : State := step exCfg exSQ1 (.searchInput "x")

/-- Parent-consistency of a navigation path below a given parent level: each
entry's `parentId` equals the id of the entry before it (or the given parent
for the first entry). -/
def chainOk (parent : Option ItemId) : List NavigationItem → Bool
  | [] => true
  | e :: rest => (e.parentId == parent) && chainOk (some e.id) rest

/-- Parent-consistency of a full navigation path: the first entry's
`parentId` is `null` and each later entry's `parentId` is the id of the
entry immediately preceding it. -/
def pathConsistent (l : List NavigationItem) : Bool :=
  chainOk none l

/-- The id of the last entry of a path, or the given parent when the path is
empty (accumulator form of `currentParentId`). -/
def lastPar (p : Option ItemId) : List NavigationItem → Option ItemId
  | [] => p
  | e :: rest => lastPar (some e.id) rest

/-- Reference derivation of the visible item set, following the words of the
specification (§4.4) and of claim C4: the active parent is the id of the
last navigation-path entry, or none when the path is empty, with no
truthiness proviso; with no active parent the visible set is the full
top-level sequence, otherwise `findChildren(tree, parentId)`; the filter
step applies only when the query is non-empty and a predicate was
supplied. -/
def visibleSpec (cfg : Config) (s : State) : ItemList :=
  let base :=
    match currentParentId s with
    | none => cfg.items
    | some pid => findChildrenL cfg.items pid
  match cfg.filterItems with
  | some f => if s.searchQuery ≠ "" then f base s.searchQuery else base
  | none => base

/-- Reference derivation of the visible item set as amended for claim C4:
identical to `visibleSpec` except that a falsy active-parent id (the number
`0` or the empty string) is treated like no active parent, yielding the full
top-level sequence — which is what the JavaScript guard `!currentParentId`
does. -/
def visibleRefAmended (cfg : Config) (s : State) : ItemList :=
  let base :=
    match currentParentId s with
    | none => cfg.items
    | some pid => if idTruthy pid then findChildrenL cfg.items pid else cfg.items
  match cfg.filterItems with
  | some f => if s.searchQuery ≠ "" then f base s.searchQuery else base
  | none => base

theorem lastPar_eq_getLast? (l : List NavigationItem) :
    ∀ p : Option ItemId,
      lastPar p l = match l.getLast? with
        | some e => some e.id
        | none => p := by
  induction l with
  | nil => intro p; rfl
  | cons e rest ih =>
    intro p
    cases rest with
    | nil => simp [lastPar, ih]
    | cons f t =>
      rw [List.getLast?_cons_cons]
      simpa [lastPar] using ih (some e.id)

theorem currentParentId_eq_lastPar (s : State) :
    currentParentId s = lastPar none s.navigationPath := by
  rw [currentParentId, lastPar_eq_getLast?]

theorem chainOk_dropLast (l : List NavigationItem) :
    ∀ p : Option ItemId, chainOk p l = true → chainOk p l.dropLast = true := by
  induction l with
  | nil => intro p h; exact h
  | cons e rest ih =>
    intro p h
    cases rest with
    | nil => rfl
    | cons f t =>
      rw [List.dropLast_cons₂]
      simp only [chainOk, Bool.and_eq_true] at h ⊢
      exact ⟨h.1, ih (some e.id) (by simp only [chainOk, Bool.and_eq_true]; exact h.2)⟩

theorem chainOk_append (l : List NavigationItem) :
    ∀ (p : Option ItemId) (e : NavigationItem), chainOk p l = true →
      e.parentId = lastPar p l → chainOk p (l ++ [e]) = true := by
  induction l with
  | nil =>
    intro p e _ hpar
    simp [chainOk, hpar, lastPar]
  | cons a rest ih =>
    intro p e h hpar
    simp only [chainOk, Bool.and_eq_true] at h
    simp only [List.cons_append, chainOk, Bool.and_eq_true]
    exact ⟨h.1, ih (some a.id) e h.2 hpar⟩

mutual

theorem findItemI_eq (eq : ItemId → ItemId → Bool) (it : Item) (id : ItemId) :
    findItemI eq it id = (preorderI it).find? (fun x => eq x.id id) := by
  match it with
  | .mk i l cs =>
    rw [findItemI, preorderI, List.find?_cons]
    cases h : eq (Item.mk i l cs).id id with
    | true => simp only [Item.id] at h; simp [h]
    | false => simp only [Item.id] at h; simp [h, findItemL_eq eq cs id]

theorem findItemL_eq (eq : ItemId → ItemId → Bool) (l : ItemList) (id : ItemId) :
    findItemL eq l id = (preorderL l).find? (fun x => eq x.id id) := by
  match l with
  | .nil => rfl
  | .cons x xs =>
    rw [findItemL, preorderL, List.find?_append, findItemI_eq eq x id,
      findItemL_eq eq xs id]
    cases h : (preorderI x).find? (fun y => eq y.id id) with
    | some r => simp [Option.or]
    | none => simp [Option.or]

end

theorem find?_of_filter_singleton {α : Type} (p : α → Bool) (l : List α) (u : α)
    (h : l.filter p = [u]) : l.find? p = some u := by
  induction l with
  | nil => simp at h
  | cons a t ih =>
    rw [List.find?_cons]
    cases hp : p a with
    | true =>
      rw [List.filter_cons_of_pos hp] at h
      simp only [List.cons.injEq] at h
      simp [h.1]
    | false =>
      rw [List.filter_cons_of_neg (by simp [hp])] at h
      exact ih h

theorem handleItemClick_path (cfg : Config) (s : State) (it : Item) :
    (handleItemClick cfg s it).1.navigationPath = s.navigationPath ∨
    (handleItemClick cfg s it).1.navigationPath =
      s.navigationPath ++
        [{ id := it.id, label := it.label, parentId := currentParentId s }] := by
  rw [handleItemClick]
  by_cases hd : cfg.disableItem it = true
  · simp [hd]
  · simp only [Bool.not_eq_true] at hd
    by_cases hc : (Item.children it).length > 0
    · simp [hd, hc]
    · simp [hd, hc]

theorem toggleSearch_path (s : State) :
    (toggleSearch s).navigationPath = s.navigationPath := by
  rw [toggleSearch]
  by_cases h : s.isSearching = true <;> simp [h]

theorem handleSelectAll_path (cfg : Config) (s : State) :
    (handleSelectAll cfg s).1.navigationPath = s.navigationPath := by
  rw [handleSelectAll]
  cases currentParentId s with
  | none => rfl
  | some pid =>
    by_cases ht : idTruthy pid = true
    · simp only [ht, if_true]
      cases findItemStrict cfg.items pid <;> rfl
    · simp [ht]

theorem resyncSelectedItem_path (cfg : Config) (selId : Option ItemId) (s : State) :
    (resyncSelectedItem cfg selId s).navigationPath = s.navigationPath := by
  cases selId <;> rfl

/-- C10: every reachable navigation path is parent-consistent — the first
entry's parentId is null and each later entry's parentId equals the id of
the entry immediately preceding it; every transition (descend, back,
close/reset, selection, search and prop changes) preserves this. -/
theorem c10_reachable_path_parent_consistent (cfg : Config) (s : State)
    (h : Reachable cfg s) : pathConsistent s.navigationPath = true := by
  induction h with
  | init => rfl
  | next s e hr hen ih =>
    cases e with
    | trigger => exact ih
    | itemClick it =>
      show pathConsistent (handleItemClick cfg s it).1.navigationPath = true
      rcases handleItemClick_path cfg s it with hp | hp
      · rw [hp]; exact ih
      · rw [hp]
        exact chainOk_append _ none _ ih (currentParentId_eq_lastPar s)
    | back =>
      show pathConsistent (handleBack s).navigationPath = true
      exact chainOk_dropLast _ none ih
    | clickOutside => rfl
    | searchToggle =>
      show pathConsistent (toggleSearch s).navigationPath = true
      rw [toggleSearch_path]; exact ih
    | searchInput q => exact ih
    | selectLevel =>
      show pathConsistent (handleSelectAll cfg s).1.navigationPath = true
      rw [handleSelectAll_path]; exact ih
    | selectedIdChange selId =>
      show pathConsistent (resyncSelectedItem cfg selId s).navigationPath = true
      rw [resyncSelectedItem_path]; exact ih

/-- Witness for C10: a concrete reachable state whose one-entry path is
parent-consistent. -/
theorem c10_witness :
    Reachable exCfg exS2 ∧ pathConsistent exS2.navigationPath = true := by
  have hr : Reachable exCfg exS2 :=
    Reachable.next exS1 (.itemClick exA)
      (Reachable.next initState .trigger Reachable.init (by decide)) (by decide)
  exact ⟨hr, c10_reachable_path_parent_consistent exCfg exS2 hr⟩

/-- Counterexample for C1 (claim as stated is false): in the reachable state
`exS2` — dropdown open at the level below `A`, path `[pA]` — clicking the
leaf `A1` does invoke `onSelect(A1, [pA])` once, but the resulting
navigation path is `[pA]`, not the empty path the claim requires: the leaf
branch of `handleItemClick` never writes `navigationPath`. -/
theorem c1_counterexample :
    Reachable exCfg exS2 ∧
    (stepOut exCfg exS2 (.itemClick exA1)).2 = some (exA1, [pA]) ∧
    (stepOut exCfg exS2 (.itemClick exA1)).1.navigationPath = [pA] ∧
    ([pA] : List NavigationItem) ≠ [] := by
  refine ⟨?_, rfl, rfl, by decide⟩
  exact Reachable.next exS1 (.itemClick exA)
    (Reachable.next initState .trigger Reachable.init (by decide)) (by decide)

/-- C1 as amended: for every widget state, clicking a non-disabled leaf (a
node with no children) leaves the navigation path unchanged (rather than
emptying it), closes the dropdown, clears the search query and search mode,
records the leaf as the resolved selection, and invokes `onSelect` exactly
once, with that leaf and the navigation path as it was at the moment of the
click. -/
theorem c1_amended_leaf_click (cfg : Config) (s : State) (it : Item)
    (hd : cfg.disableItem it = false) (hleaf : (Item.children it).length = 0) :
    handleItemClick cfg s it =
      ({ s with
          selectedItem := some it, isOpen := false, searchQuery := "",
          isSearching := false },
        some (it, s.navigationPath)) := by
  rw [handleItemClick]
  simp [hd, hleaf]

/-- Witness for C1 as amended: clicking the leaf `A1` from the state below
`A`. -/
theorem c1_witness :
    exCfg.disableItem exA1 = false ∧ (Item.children exA1).length = 0 ∧
    handleItemClick exCfg exS2 exA1 =
      ({ exS2 with
          selectedItem := some exA1, isOpen := false, searchQuery := "",
          isSearching := false },
        some (exA1, [pA])) :=
  ⟨rfl, rfl, c1_amended_leaf_click exCfg exS2 exA1 rfl rfl⟩

/-- Counterexample for C2 (claim as stated is false), in two parts.  First,
with path `[pA]` (one first-level entry, id 1), `handleSelectAll` invokes
`onSelect` with node `A` and the full current path `[pA]`, not with the
empty path-before-entering-the-level that the claim requires.  Second, with
a non-empty path whose last entry has the falsy id `0` that does resolve to
a node of the tree (`exN0`), `handleSelectAll` is a complete no-op and never
invokes `onSelect`, because the JavaScript guard `if (currentParentId)`
treats the id `0` as absent. -/
theorem c2_counterexample :
    ((handleSelectAll exCfg exS2).2 = some (exA, [pA]) ∧
      (handleSelectAll exCfg exS2).2 ≠ some (exA, [])) ∧
    (findItemStrict exCfg0.items (ItemId.num 0) = some exN0 ∧
      handleSelectAll exCfg0 exS0 = (exS0, none)) :=
  ⟨⟨rfl, by decide⟩, rfl, rfl⟩

/-- C2 as amended: for every widget state whose navigation path is non-empty
and whose last entry's id is truthy (not the number `0` or the empty
string) and resolves, by strict-equality tree lookup, to a node of the
tree, `handleSelectAll` invokes `onSelect` with that node and with the full
current navigation path (which still includes the entry for the node
itself), records the node as the resolved selection, closes the dropdown
and clears the search state.  (With a falsy last id the handler is a no-op
even when the id resolves.) -/
theorem c2_amended_select_level (cfg : Config) (s : State) (e : NavigationItem)
    (cur : Item) (hlast : s.navigationPath.getLast? = some e)
    (ht : idTruthy e.id = true)
    (hfind : findItemStrict cfg.items e.id = some cur) :
    handleSelectAll cfg s =
      ({ s with
          selectedItem := some cur, isOpen := false, searchQuery := "",
          isSearching := false },
        some (cur, s.navigationPath)) := by
  rw [handleSelectAll, currentParentId, hlast]
  simp [ht, hfind]

/-- Witness for C2 as amended: selecting the current level below `A`. -/
theorem c2_witness :
    exS2.navigationPath.getLast? = some pA ∧ idTruthy pA.id = true ∧
    findItemStrict exCfg.items pA.id = some exA ∧
    handleSelectAll exCfg exS2 =
      ({ exS2 with
          selectedItem := some exA, isOpen := false, searchQuery := "",
          isSearching := false },
        some (exA, [pA])) :=
  ⟨rfl, rfl, rfl, c2_amended_select_level exCfg exS2 pA exA rfl rfl rfl⟩

/-- Counterexample for C3 (claim as stated is false): the state `exS3` —
reached by opening the dropdown, descending into `A`, and clicking the
trigger button again — is reachable and closed, yet its navigation path is
the non-empty `[pA]`: the trigger button's handler only toggles `isOpen`
and resets nothing. -/
theorem c3_counterexample :
    Reachable exCfg exS3 ∧ exS3.isOpen = false ∧ exS3.navigationPath ≠ [] := by
  refine ⟨?_, rfl, by decide⟩
  exact Reachable.next exS2 .trigger
    (Reachable.next exS1 (.itemClick exA)
      (Reachable.next initState .trigger Reachable.init (by decide)) (by decide))
    (by decide)

/-- C3 as amended: only closing through the click-outside handler
(`handleClose`) resets the internal state to its defaults — for every prior
state it yields a closed dropdown with an empty navigation path, an empty
search query and search mode off.  Closing by a completed selection clears
the query but keeps the navigation path, and closing via the trigger button
keeps both, so a closed reachable state need not have an empty path or
query. -/
theorem c3_amended_close_resets (s : State) :
    (handleClose s).isOpen = false ∧ (handleClose s).navigationPath = [] ∧
    (handleClose s).searchQuery = "" ∧ (handleClose s).isSearching = false :=
  ⟨rfl, rfl, rfl, rfl⟩

/-- Counterexample for C4 (claim as stated is false): with navigation path
`[p0]` whose entry has id `0` — reachable by descending into the node
`exN0`, which has a child — the reference derivation of the claim yields
`findChildren(tree, 0) = [exC]`, but `currentItems` yields the full
top-level sequence, because the JavaScript guard `!currentParentId` treats
the id `0` as "no active parent". -/
theorem c4_counterexample :
    currentItems exCfg0 exS0 ≠ visibleSpec exCfg0 exS0 ∧
    currentItems exCfg0 exS0 = exCfg0.items ∧
    visibleSpec exCfg0 exS0 = Item.children exN0 :=
  ⟨by decide, rfl, rfl⟩

/-- C4 as amended: `currentItems()` equals the reference derivation in which
the active parent is the last navigation-path entry's id only when that id
is truthy — a falsy id (the number `0` or the empty string), like an empty
path, yields the full top-level sequence; with a truthy active parent the
visible set is `findChildren(tree, parentId)`; the search-filter step
applies only when the query is non-empty and a filter predicate was
supplied. -/
theorem c4_amended_visible_items (cfg : Config) (s : State) :
    currentItems cfg s = visibleRefAmended cfg s ∧
    (s.searchQuery = "" → currentItems cfg s = getCurrentItems cfg s) ∧
    (cfg.filterItems = none → currentItems cfg s = getCurrentItems cfg s) ∧
    (s.navigationPath = [] → getCurrentItems cfg s = cfg.items) ∧
    (∀ e : NavigationItem, s.navigationPath.getLast? = some e →
      idTruthy e.id = true → getCurrentItems cfg s = findChildrenL cfg.items e.id) ∧
    (∀ e : NavigationItem, s.navigationPath.getLast? = some e →
      idTruthy e.id = false → getCurrentItems cfg s = cfg.items) := by
  refine ⟨?_, ?_, ?_, ?_, ?_, ?_⟩
  · cases hf : cfg.filterItems <;>
      simp only [currentItems, visibleRefAmended, getCurrentItems, hf]
  · intro h
    rw [currentItems]
    cases hf : cfg.filterItems with
    | none => rfl
    | some f => simp [h]
  · intro hf
    rw [currentItems, hf]
  · intro h
    rw [getCurrentItems, currentParentId, h]
    rfl
  · intro e hlast ht
    rw [getCurrentItems, currentParentId, hlast]
    simp [ht]
  · intro e hlast ht
    rw [getCurrentItems, currentParentId, hlast]
    simp [ht]

/-- Witness for C4 as amended: below `A` (truthy id 1), the visible set is
`findChildren(tree, 1)`. -/
theorem c4_witness :
    exS2.navigationPath.getLast? = some pA ∧ idTruthy pA.id = true ∧
    getCurrentItems exCfg exS2 = findChildrenL exCfg.items pA.id :=
  ⟨rfl, rfl, (c4_amended_visible_items exCfg exS2).2.2.2.2.1 pA rfl rfl⟩

/-- C5: descending into a non-disabled node with at least one child via
`handleItemClick` and then immediately going back via `handleBack` restores
the prior navigation path exactly (order-sensitive list equality). -/
theorem c5_descend_back (cfg : Config) (s : State) (it : Item)
    (hd : cfg.disableItem it = false) (hc : 0 < (Item.children it).length) :
    (handleBack (handleItemClick cfg s it).1).navigationPath =
      s.navigationPath := by
  rw [handleItemClick]
  simp [hd, hc, handleBack, List.dropLast_concat]

/-- Witness for C5: descend into `A` from the root and go back. -/
theorem c5_witness :
    exCfg.disableItem exA = false ∧ 0 < (Item.children exA).length ∧
    (handleBack (handleItemClick exCfg initState exA).1).navigationPath = [] :=
  ⟨rfl, by decide, c5_descend_back exCfg initState exA rfl (by decide)⟩

/-- Counterexample for C6 (claim as stated is false): in the reachable state
`exSQ` — dropdown open at the root, search mode on, query `"x"` — clicking
the node `A` (which has children) changes the navigation level, yet the
search query is still `"x"` afterwards: the descend branch of
`handleItemClick` never clears the query. -/
theorem c6_counterexample :
    Reachable exCfg exSQ ∧ exSQ.searchQuery = "x" ∧
    (step exCfg exSQ (.itemClick exA)).navigationPath ≠ exSQ.navigationPath ∧
    (step exCfg exSQ (.itemClick exA)).searchQuery = "x" := by
  refine ⟨?_, rfl, by decide, rfl⟩
  exact Reachable.next exSQ1 (.searchInput "x")
    (Reachable.next exS1 .searchToggle
      (Reachable.next initState .trigger Reachable.init (by decide)) (by decide))
    (by decide)

/-- C6 as amended: going back one level (`handleBack`) always clears the
search query, but descending into a child node (`handleItemClick` on a
non-disabled node with children) leaves the search query unchanged — so a
non-empty query does survive a descend, and only the Back direction of a
level change clears it. -/
theorem c6_amended_query_on_level_change (cfg : Config) (s : State) (it : Item)
    (hd : cfg.disableItem it = false) (hc : 0 < (Item.children it).length) :
    (handleBack s).searchQuery = "" ∧
    (handleItemClick cfg s it).1.searchQuery = s.searchQuery := by
  refine ⟨rfl, ?_⟩
  rw [handleItemClick]
  simp [hd, hc]

/-- Witness for C6 as amended: back clears the query `"x"`; descending into
`A` keeps it. -/
theorem c6_witness :
    exCfg.disableItem exA = false ∧ 0 < (Item.children exA).length ∧
    (handleBack exSQ).searchQuery = "" ∧
    (handleItemClick exCfg exSQ exA).1.searchQuery = "x" :=
  ⟨rfl, by decide,
    (c6_amended_query_on_level_change exCfg exSQ exA rfl (by decide)).1,
    (c6_amended_query_on_level_change exCfg exSQ exA rfl (by decide)).2⟩

/-- C7: `findItem` (with either of the two id equalities used in the source)
traverses the tree in depth-first pre-order and returns the first node whose
identifier field satisfies the searched id, so for a tree containing exactly
one node with that id it returns that unique node. -/
theorem c7_findItem_preorder_unique (eq : ItemId → ItemId → Bool) (l : ItemList)
    (id : ItemId) :
    findItemL eq l id = (preorderL l).find? (fun x => eq x.id id) ∧
    (∀ u : Item, (preorderL l).filter (fun x => eq x.id id) = [u] →
      findItemL eq l id = some u) := by
  refine ⟨findItemL_eq eq l id, fun u h => ?_⟩
  rw [findItemL_eq eq l id]
  exact find?_of_filter_singleton _ _ u h

/-- Witness for C7: id 11 occurs exactly once in the scenario tree and
`findItem` returns that node. -/
theorem c7_witness :
    (preorderL exItems).filter (fun x => jsEqStrict x.id (ItemId.num 11)) = [exA1] ∧
    findItemL jsEqStrict exItems (ItemId.num 11) = some exA1 :=
  ⟨by decide,
    (c7_findItem_preorder_unique jsEqStrict exItems (ItemId.num 11)).2 exA1 (by decide)⟩

/-- C8: clicking an item for which the supplied `disableItem` predicate
returns true is a complete no-op — the returned state is the input state
(same navigation path, search query, `isSearching` flag, open/closed flag
and resolved selection) and `onSelect` is not invoked. -/
theorem c8_disabled_click_noop (cfg : Config) (s : State) (it : Item)
    (hd : cfg.disableItem it = true) :
    handleItemClick cfg s it = (s, none) := by
  rw [handleItemClick]
  simp [hd]

/-- Witness for C8: clicking the disabled `B` in the open root state. -/
theorem c8_witness :
    exCfgD.disableItem exB = true ∧ handleItemClick exCfgD exS1 exB = (exS1, none) :=
  ⟨by decide, c8_disabled_click_noop exCfgD exS1 exB (by decide)⟩

/-- C9: the selected-item resync recomputes the resolved selection by
full-tree search whenever the externally supplied selected id changes: an
absent (`null`) id resolves to no selection; a present id resolves to the
result of the loose-equality full-tree `findItem`; and an id that no node
of the tree matches resolves to no selection — in each case without any
error signalled to the caller (the handler only writes `selectedItem`). -/
theorem c9_selected_resync (cfg : Config) (s : State) :
    (resyncSelectedItem cfg none s).selectedItem = none ∧
    (∀ i : ItemId,
      (resyncSelectedItem cfg (some i) s).selectedItem = findItemLoose cfg.items i) ∧
    (∀ i : ItemId, (∀ x ∈ preorderL cfg.items, jsEqLoose x.id i = false) →
      (resyncSelectedItem cfg (some i) s).selectedItem = none) := by
  refine ⟨rfl, fun i => rfl, fun i h => ?_⟩
  show findItemLoose cfg.items i = none
  rw [findItemLoose, findItemL_eq, List.find?_eq_none]
  intro x hx
  simp [h x hx]

/-- Witness for C9: the id 99 occurs nowhere in the scenario tree and the
resync resolves it to no selection. -/
theorem c9_witness :
    (∀ x ∈ preorderL exCfg.items, jsEqLoose x.id (ItemId.num 99) = false) ∧
    (resyncSelectedItem exCfg (some (ItemId.num 99)) initState).selectedItem = none :=
  ⟨by decide, (c9_selected_resync exCfg initState).2.2 (ItemId.num 99) (by decide)⟩
